import Mathlib

/-!
Verification of the event-resumption and idempotent-decision engine of the
salesforce-kpis repository, against its natural-language specification.

The development shallowly embeds the three core Python modules:

* `app/workloads/first_touch.py` — the idempotent first-response detector
  (`FirstTouchDetector.detect_first_touch`, `find_and_record_first_touch`,
  `parse_dt`);
* `app/cdc/replay_store.py` — the cursor store (`ReplayStore.get` / `set` /
  `_read`, backed by a JSON file);
* `app/cdc/subscriber.py` — the event dispatcher (`CDCSubscriber._process_event`
  and the per-record loop inside `start_polling`).

Modelling conventions:

* Timestamps are integers (seconds since some epoch).  `iso` in the source
  formats datetimes at whole-second precision, so the write-then-reparse round
  trip on `First_Response_At__c` is the identity on the modelled values.
* A stored record field that holds a timestamp string is a `FieldVal`: it is
  either missing (`None`/empty in Python), a string that `dateutil` fails to
  parse, or a string parsing to a definite instant.  `parse_dt` in the source
  returns `None` on the first two and the instant on the third.
* The external record store is modelled by passing the single lead's record in
  and out of the detector: `get_record` is reading the argument, the four-field
  `update_record` is the functional record update in the result.  Store I/O is
  modelled as succeeding; the error-return branches for `get_record` /
  `update_record` failures (lines 107-113 and 185-191 of the source) are not
  exercised by the claims under verification.
* The Python `int()` conversion applied to `ttfr_seconds / 60` truncates
  toward zero; this is `Int.tdiv` on the modelled integer difference, which is
  distinct from the floor division `Int.fdiv` on negative inputs.
-/

/-- A stored timestamp field as the detector sees it: absent (`None`/empty
string), present but unparseable, or parsing to instant `t`. -/
inductive FieldVal where
  | absent : FieldVal
  | malformed : FieldVal
  | ts : Int → FieldVal
deriving DecidableEq, Repr

/-- `parse_dt` (first_touch.py lines 30-37): returns `None` for a missing or
falsy string and for a string `dateutil` cannot parse, otherwise the parsed
instant. -/
def parse_dt : FieldVal → Option Int
  | .absent => none
  | .malformed => none
  | .ts t => some t

/-- The Lead record fields read and written by the detector. -/
structure LeadRecord where
  createdDate : FieldVal
  firstResponseAt : FieldVal
  firstResponseUser : Option String
  firstResponseSource : Option String
  timeToFirstResponse : Option Int
deriving DecidableEq, Repr

/-- The result dict returned by `detect_first_touch`. -/
inductive DetectResult where
  | error (msg : String)
  | skipped (existingDt candidateDt : Int)
  | updated (firstResponseAt : Int) (userId source : String)
      (ttfrMinutes : Int) (replacedExisting : Bool)
deriving DecidableEq, Repr

/-- The fall-through part of `detect_first_touch` after the existing-earlier
check (first_touch.py lines 136-183): parse `CreatedDate`, failing with the
`Missing CreatedDate` error if it is absent or unparseable; otherwise compute
`ttfr_minutes = int(ttfr_seconds / 60)` and write all four response fields. -/
def detect_update (lead : LeadRecord) (candidateDt : Int) (userId source : String)
    (existingDt : Option Int) : DetectResult × LeadRecord :=
  match parse_dt lead.createdDate with
  | none => (.error "Missing CreatedDate", lead)
  | some createdDt =>
      let ttfrSeconds : Int := candidateDt - createdDt
      let ttfrMinutes : Int := ttfrSeconds.tdiv 60
      (.updated candidateDt userId source ttfrMinutes existingDt.isSome,
       { lead with
           firstResponseAt := .ts candidateDt
           firstResponseUser := some userId
           firstResponseSource := some source
           timeToFirstResponse := some ttfrMinutes })

/-- `FirstTouchDetector.detect_first_touch` (first_touch.py lines 64-191),
with the record store modelled as the `lead` argument and result state.  If an
existing first response parses and is `<=` the candidate, skip with reason
`existing_earlier` and write nothing; otherwise fall through to the update. -/
def detect_first_touch (lead : LeadRecord) (candidateDt : Int)
    (userId source : String) : DetectResult × LeadRecord :=
  match parse_dt lead.firstResponseAt with
  | some existingDt =>
      if existingDt ≤ candidateDt then
        (.skipped existingDt candidateDt, lead)
      else
        detect_update lead candidateDt userId source (some existingDt)
  | none => detect_update lead candidateDt userId source none

/-- A first-response candidate delivered to the detector. -/
structure Cand where
  ts : Int
  user : String
  source : String
deriving DecidableEq, Repr

/-- Apply `detect_first_touch` once per candidate, in list order, threading the
stored lead record. -/
def applyAll (lead : LeadRecord) (cs : List Cand) : LeadRecord :=
  cs.foldl (fun l c => (detect_first_touch l c.ts c.user c.source).2) lead

/-- A lead whose response fields all start absent, created at `createdDt`. -/
def emptyLead (createdDt : Int) : LeadRecord :=
  { createdDate := .ts createdDt
    firstResponseAt := .absent
    firstResponseUser := none
    firstResponseSource := none
    timeToFirstResponse := none }

/-- One row returned by a candidate query in `find_and_record_first_touch`:
the timestamp field (`CreatedDate` for Tasks, `MessageDate` for EmailMessages)
and the responder identifier (`OwnerId` / `CreatedById`). -/
structure QueryRow where
  rowDt : FieldVal
  userId : String
deriving DecidableEq, Repr

/-- The candidate timestamp a query result yields (first_touch.py lines
235-246): `None` when the result list is empty, otherwise `parse_dt` of the
first row's timestamp field. -/
def earliestDt : List QueryRow → Option Int
  | [] => none
  | r :: _ => parse_dt r.rowDt

/-- The responder id taken from the first row of a query result (meaningful
only in branches where `earliestDt` is `some`, which forces the list to be
nonempty, mirroring the `None` initialisation in the source). -/
def headUser : List QueryRow → String
  | [] => ""
  | r :: _ => r.userId

/-- `FirstTouchDetector.find_and_record_first_touch` (first_touch.py lines
193-269) after the two queries returned `tasks` and `emails` (each already
ordered ascending with `LIMIT 1` applied upstream; the model receives the
result lists).  Picks the earliest candidate — the `Task` branch on `<=` — and
hands it to `detect_first_touch`; returns `none` (Python `None`) when neither
source yields a candidate. -/
def find_and_record_first_touch (lead : LeadRecord)
    (tasks emails : List QueryRow) : Option DetectResult × LeadRecord :=
  match earliestDt tasks, earliestDt emails with
  | some taskDt, some emailDt =>
      if taskDt ≤ emailDt then
        let r := detect_first_touch lead taskDt (headUser tasks) "Task"
        (some r.1, r.2)
      else
        let r := detect_first_touch lead emailDt (headUser emails) "EmailMessage"
        (some r.1, r.2)
  | some taskDt, none =>
      let r := detect_first_touch lead taskDt (headUser tasks) "Task"
      (some r.1, r.2)
  | none, some emailDt =>
      let r := detect_first_touch lead emailDt (headUser emails) "EmailMessage"
      (some r.1, r.2)
  | none, none => (none, lead)

/-!
## Cursor store (`app/cdc/replay_store.py`)

The persisted medium is a single JSON file.  `FileContent` models what a read
of that file can encounter: the file is missing (`FileNotFoundError`), the
read itself fails with some other OS error (e.g. `PermissionError`), or the
read yields text that either fails `json.loads` or decodes to a string-keyed
mapping.  Decoded mappings are association lists with unique keys maintained
by `dictSet`.
-/

/-- What the store file's text decodes to. -/
inductive StoredText where
  | invalidJson (raw : String)
  | jsonMap (entries : List (String × String))
deriving DecidableEq, Repr

/-- The state of the store file as seen by `Path.read_text`. -/
inductive FileContent where
  | missing
  | failsOS (msg : String)
  | text (content : StoredText)
deriving DecidableEq, Repr

/-- Python `data[channel] = value` on a string-keyed dict: replace the
existing entry for the key, or append a new one. -/
def dictSet (entries : List (String × String)) (key value : String) :
    List (String × String) :=
  match entries with
  | [] => [(key, value)]
  | (k, v) :: rest =>
      if k = key then (k, value) :: rest else (k, v) :: dictSet rest key value

/-- Python `data.get(channel)`: the value for the first matching key. -/
def dictGet (entries : List (String × String)) (key : String) : Option String :=
  match entries with
  | [] => none
  | (k, v) :: rest => if k = key then some v else dictGet rest key

namespace ReplayStore

/-- `ReplayStore._read` (replay_store.py lines 102-108): `json.loads` of
`read_text`.  `JSONDecodeError` and `FileNotFoundError` are caught and turned
into the empty mapping; any other OS error from the read propagates. -/
def readState : FileContent → Except String (List (String × String))
  | .missing => .ok []
  | .failsOS msg => .error msg
  | .text (.invalidJson _) => .ok []
  | .text (.jsonMap entries) => .ok entries

/-- `ReplayStore.get` (replay_store.py lines 37-55): `_read` then
`data.get(channel)`. -/
def get (f : FileContent) (channel : String) : Except String (Option String) :=
  match readState f with
  | .error msg => .error msg
  | .ok entries => .ok (dictGet entries channel)

/-- `ReplayStore.set` (replay_store.py lines 57-73): under the lock, `_read`,
assign `data[channel] = replay_id`, `_write` the whole mapping back.  The
result is the new file content; a read failure propagates out of `set`. -/
def set (f : FileContent) (channel replayId : String) :
    Except String FileContent :=
  match readState f with
  | .error msg => .error msg
  | .ok entries => .ok (.text (.jsonMap (dictSet entries channel replayId)))

end ReplayStore

/-!
## Event dispatcher (`app/cdc/subscriber.py`)

`_process_event` is embedded as a function from the handler registration, the
store file state, the channel and the envelope to the new store state plus an
ordered trace of the externally visible actions it performed.  The whole
Python body runs inside one `try`/`except Exception` block; an exception from
the replay-store write or from the handler is therefore caught at this
boundary, which the model records as an `errorCaught` action terminating the
envelope's trace instead of letting anything propagate.  The metrics and lag
bookkeeping (subscriber.py lines 121-138) touch neither the store nor the
handler and are not modelled.
-/

/-- A change-event envelope as `_process_event` consumes it: the payload
handed to the handler, and the replay id at `data.event.replayId` (absent when
the key path is missing; the empty string models any other falsy value, e.g.
the `''` default used by `_convert_to_cdc_event`). -/
structure Envelope where
  payload : List (String × String)
  replayId : Option String
deriving DecidableEq, Repr

/-- A registered channel handler: Python raising is `Except.error`. -/
def Handler : Type := List (String × String) → Except String Unit

/-- The externally visible actions of one `_process_event` call, in program
order. -/
inductive EventAction where
  | cursorSet (channel token : String)
  | handlerInvoke (channel : String)
  | logNoHandler (channel : String)
  | errorCaught (channel msg : String)
deriving DecidableEq, Repr

/-- The handler-dispatch tail of `_process_event` (subscriber.py lines
145-161): look up the handler for the channel; if none, log and continue;
otherwise invoke it, and record at the `except` boundary any error it raised. -/
def dispatchHandler (handler : Option Handler) (store : FileContent)
    (channel : String) (trace : List EventAction) (env : Envelope) :
    FileContent × List EventAction :=
  match handler with
  | none => (store, trace ++ [.logNoHandler channel])
  | some h =>
      match h env.payload with
      | .ok _ => (store, trace ++ [.handlerInvoke channel])
      | .error msg =>
          (store, trace ++ [.handlerInvoke channel, .errorCaught channel msg])

/-- `CDCSubscriber._process_event` (subscriber.py lines 109-175): extract the
replay id; if it is truthy, persist it via `ReplayStore.set` — a store write
failure is caught by the enclosing `except` and ends the envelope — and then
dispatch to the handler. -/
def process_event (handler : Option Handler) (store : FileContent)
    (channel : String) (env : Envelope) : FileContent × List EventAction :=
  match env.replayId with
  | some rid =>
      if rid = "" then
        dispatchHandler handler store channel [] env
      else
        match ReplayStore.set store channel rid with
        | .error msg => (store, [.errorCaught channel msg])
        | .ok store₁ =>
            dispatchHandler handler store₁ channel [.cursorSet channel rid] env
  | none => dispatchHandler handler store channel [] env

/-- The per-record loop of `start_polling` (subscriber.py lines 212-219):
`_process_event` on each envelope in order, threading the store and
concatenating the traces.  Nothing an earlier envelope does can abort the
loop, since `_process_event` catches all per-envelope errors. -/
def processAll (handler : Option Handler) (store : FileContent)
    (channel : String) : List Envelope → FileContent × List EventAction
  | [] => (store, [])
  | env :: rest =>
      let r₁ := process_event handler store channel env
      let r₂ := processAll handler r₁.1 channel rest
      (r₂.1, r₁.2 ++ r₂.2)

/-- Whether a result dict reports `status == error`. -/
def DetectResult.isError : DetectResult → Bool
  | .error _ => true
  | _ => false

/-- The state invariant maintained by repeated detection on one lead: the
creation instant is intact and the stored response fields record the earliest
candidate seen so far, with minutes derived from it. -/
def RecordedMin (createdDt : Int) (lead : LeadRecord) (m : Int) : Prop :=
  lead.createdDate = .ts createdDt ∧ lead.firstResponseAt = .ts m ∧
  lead.timeToFirstResponse = some ((m - createdDt).tdiv 60)

/-- The earliest timestamp among the candidates `c₀ :: cs`, as the fold the
detection sequence computes. -/
def minTs (c₀ : Cand) (cs : List Cand) : Int :=
  cs.foldl (fun a c => min a c.ts) c₀.ts

/-- `json.loads` on the store file's text: fails on undecodable text. -/
def jsonLoads : StoredText → Option (List (String × String))
  | .invalidJson _ => none
  | .jsonMap entries => some entries

/-- A lead with a parseable existing first response, for concrete runs. -/
def leadExisting : LeadRecord :=
  { createdDate := .ts 0
    firstResponseAt := .ts 100
    firstResponseUser := some "u0"
    firstResponseSource := some "Task"
    timeToFirstResponse := some 1 }

/-- A lead whose stored `First_Response_At__c` is unparseable. -/
def leadMalformed : LeadRecord :=
  { createdDate := .ts 0
    firstResponseAt := .malformed
    firstResponseUser := some "u0"
    firstResponseSource := some "Task"
    timeToFirstResponse := some 5 }

/-- A handler that succeeds on every payload. -/
def okHandler : Handler := fun _ => .ok ()

/-- A handler that raises on every payload. -/
def errHandler : Handler := fun _ => .error "boom"

/-- A concrete envelope carrying a truthy replay token. -/
def envLead42 : Envelope := { payload := [], replayId := some "42183991" }

/-!
## Helper lemmas
-/

theorem dictGet_dictSet_self (entries : List (String × String)) (key value : String) :
    dictGet (dictSet entries key value) key = some value := by
  induction entries with
  | nil => simp [dictSet, dictGet]
  | cons kv rest ih =>
      obtain ⟨k, v⟩ := kv
      by_cases h : k = key <;> simp [dictSet, dictGet, h, ih]

theorem dictGet_dictSet_ne (entries : List (String × String))
    (key key' value : String) (h : key' ≠ key) :
    dictGet (dictSet entries key' value) key = dictGet entries key := by
  induction entries with
  | nil => simp [dictSet, dictGet, h]
  | cons kv rest ih =>
      obtain ⟨k, v⟩ := kv
      by_cases hk : k = key'
      · subst hk
        simp [dictSet, dictGet, h]
      · by_cases hk2 : k = key <;>
          simp [dictSet, dictGet, hk, hk2, ih, Ne.symm h]

/-- A successful `ReplayStore.set` leaves the file holding a decodable map. -/
theorem ReplayStore.set_ok_shape (f f' : FileContent) (channel replayId : String)
    (h : ReplayStore.set f channel replayId = .ok f') :
    ∃ entries, f' = .text (.jsonMap (dictSet entries channel replayId)) := by
  unfold ReplayStore.set at h
  cases hf : ReplayStore.readState f with
  | error msg => rw [hf] at h; cases h
  | ok entries => rw [hf] at h; cases h; exact ⟨entries, rfl⟩

/-- After a successful `set`, `get` on the same channel returns the token. -/
theorem ReplayStore.get_set_self (f f' : FileContent) (channel replayId : String)
    (h : ReplayStore.set f channel replayId = .ok f') :
    ReplayStore.get f' channel = .ok (some replayId) := by
  obtain ⟨entries, rfl⟩ := ReplayStore.set_ok_shape f f' channel replayId h
  simp [ReplayStore.get, ReplayStore.readState, dictGet_dictSet_self]

/-- The handler-dispatch tail never touches the store, and appends only
non-`cursorSet` actions to the trace. -/
theorem dispatchHandler_frame (handler : Option Handler) (store : FileContent)
    (channel : String) (trace : List EventAction) (env : Envelope) :
    (dispatchHandler handler store channel trace env).1 = store ∧
    ∃ a : List EventAction,
      (dispatchHandler handler store channel trace env).2 = trace ++ a ∧
      ∀ c t, EventAction.cursorSet c t ∉ a := by
  unfold dispatchHandler
  cases handler with
  | none => exact ⟨rfl, [.logNoHandler channel], rfl, by simp⟩
  | some h =>
      cases hres : h env.payload with
      | ok u =>
          refine ⟨?_, [.handlerInvoke channel], ?_, by simp⟩ <;> simp [hres]
      | error msg =>
          refine ⟨?_, [.handlerInvoke channel, .errorCaught channel msg], ?_, by simp⟩ <;>
            simp [hres]

/-- With a registered handler, the dispatch tail always records the handler
invocation. -/
theorem dispatchHandler_invokes (h : Handler) (store : FileContent)
    (channel : String) (trace : List EventAction) (env : Envelope) :
    EventAction.handlerInvoke channel ∈
      (dispatchHandler (some h) store channel trace env).2 := by
  unfold dispatchHandler
  cases hres : h env.payload with
  | ok u => simp [hres]
  | error msg => simp [hres]

theorem recordedMin_step (createdDt m : Int) (lead : LeadRecord) (c : Cand)
    (h : RecordedMin createdDt lead m) :
    RecordedMin createdDt
      (detect_first_touch lead c.ts c.user c.source).2 (min m c.ts) := by
  obtain ⟨h1, h2, h3⟩ := h
  by_cases hle : m ≤ c.ts
  · have hrun : detect_first_touch lead c.ts c.user c.source =
        (.skipped m c.ts, lead) := by
      simp [detect_first_touch, h2, parse_dt, hle]
    rw [hrun, min_eq_left hle]
    exact ⟨h1, h2, h3⟩
  · have hrun : detect_first_touch lead c.ts c.user c.source =
        detect_update lead c.ts c.user c.source (some m) := by
      simp [detect_first_touch, h2, parse_dt, hle]
    rw [hrun, min_eq_right (le_of_lt (lt_of_not_le hle))]
    simp [detect_update, h1, parse_dt, RecordedMin]

theorem recordedMin_start (createdDt : Int) (c : Cand) :
    RecordedMin createdDt
      (detect_first_touch (emptyLead createdDt) c.ts c.user c.source).2 c.ts := by
  simp [detect_first_touch, emptyLead, parse_dt, detect_update, RecordedMin]

theorem applyAll_recordedMin (createdDt : Int) (cs : List Cand) :
    ∀ (lead : LeadRecord) (m : Int), RecordedMin createdDt lead m →
      RecordedMin createdDt (applyAll lead cs)
        (cs.foldl (fun a c => min a c.ts) m) := by
  induction cs with
  | nil => intro lead m h; exact h
  | cons c cs ih =>
      intro lead m h
      have hstep := recordedMin_step createdDt m lead c h
      simpa [applyAll, List.foldl] using
        ih (detect_first_touch lead c.ts c.user c.source).2 (min m c.ts) hstep

theorem foldl_min_spec (cs : List Cand) :
    ∀ a : Int,
      (cs.foldl (fun x c => min x c.ts) a ≤ a ∧
        ∀ c ∈ cs, cs.foldl (fun x c => min x c.ts) a ≤ c.ts) ∧
      (cs.foldl (fun x c => min x c.ts) a = a ∨
        ∃ c ∈ cs, c.ts = cs.foldl (fun x c => min x c.ts) a) := by
  induction cs with
  | nil => intro a; exact ⟨⟨le_refl a, by simp⟩, Or.inl rfl⟩
  | cons c cs ih =>
      intro a
      obtain ⟨⟨hle, hmem⟩, hattain⟩ := ih (min a c.ts)
      refine ⟨⟨le_trans hle (min_le_left a c.ts), ?_⟩, ?_⟩
      · intro d hd
        rcases List.mem_cons.mp hd with hd | hd
        · subst hd
          exact le_trans hle (min_le_right a d.ts)
        · exact hmem d hd
      · rcases hattain with heq | ⟨d, hd, hdts⟩
        · rcases le_total a c.ts with hac | hca
          · exact Or.inl (by rw [List.foldl_cons, heq, min_eq_left hac])
          · exact Or.inr ⟨c, List.mem_cons_self c cs,
              by rw [List.foldl_cons, heq, min_eq_right hca]⟩
        · exact Or.inr ⟨d, List.mem_cons_of_mem c hd, hdts⟩

theorem minTs_spec (c₀ : Cand) (cs : List Cand) :
    (∀ c ∈ c₀ :: cs, minTs c₀ cs ≤ c.ts) ∧
      ∃ c ∈ c₀ :: cs, c.ts = minTs c₀ cs := by
  obtain ⟨⟨hle, hmem⟩, hattain⟩ := foldl_min_spec cs c₀.ts
  constructor
  · intro c hc
    rcases List.mem_cons.mp hc with hc | hc
    · subst hc; exact hle
    · exact hmem c hc
  · rcases hattain with heq | ⟨d, hd, hdts⟩
    · exact ⟨c₀, List.mem_cons_self c₀ cs, heq.symm⟩
    · exact ⟨d, List.mem_cons_of_mem c₀ hd, hdts⟩

theorem applyAll_nonempty (createdDt : Int) (c₀ : Cand) (cs : List Cand) :
    RecordedMin createdDt (applyAll (emptyLead createdDt) (c₀ :: cs))
      (minTs c₀ cs) := by
  have hstart := recordedMin_start createdDt c₀
  have := applyAll_recordedMin createdDt cs
      (detect_first_touch (emptyLead createdDt) c₀.ts c₀.user c₀.source).2
      c₀.ts hstart
  simpa [applyAll, minTs] using this

/-- With a registered handler, `_process_event` on a store holding a decodable
map always reaches the handler invocation. -/
theorem process_event_invokes (h : Handler) (entries : List (String × String))
    (channel : String) (env : Envelope) :
    EventAction.handlerInvoke channel ∈
      (process_event (some h) (.text (.jsonMap entries)) channel env).2 := by
  unfold process_event
  match env.replayId with
  | none => exact dispatchHandler_invokes h _ channel [] env
  | some rid =>
      by_cases hrid : rid = ""
      · simp only [hrid, if_true]
        exact dispatchHandler_invokes h _ channel [] env
      · simp only [hrid, if_false]
        have hset : ReplayStore.set (.text (.jsonMap entries)) channel rid =
            .ok (.text (.jsonMap (dictSet entries channel rid))) := rfl
        rw [hset]
        exact dispatchHandler_invokes h _ channel _ env

/-!
## Claim theorems
-/

/-- C1: starting from a lead whose stored response fields are absent, applying
`detect_first_touch` once per delivered candidate — in any order, with any
candidate redelivered any number of times — always converges: the final
`first_response_at` is the minimum candidate timestamp, the recorded
`time_to_first_response_minutes` is computed from that minimum, and any other
delivery sequence over the same set of candidate timestamps reaches the same
final response fields. -/
theorem detect_first_touch_converges (createdDt : Int) (c₀ : Cand) (cs : List Cand) :
    ∃ M : Int,
      (∀ c ∈ c₀ :: cs, M ≤ c.ts) ∧ (∃ c ∈ c₀ :: cs, c.ts = M) ∧
      (applyAll (emptyLead createdDt) (c₀ :: cs)).firstResponseAt = .ts M ∧
      (applyAll (emptyLead createdDt) (c₀ :: cs)).timeToFirstResponse =
        some ((M - createdDt).tdiv 60) ∧
      ∀ (d₀ : Cand) (ds : List Cand),
        (∀ x : Int, (∃ c ∈ c₀ :: cs, c.ts = x) ↔ (∃ c ∈ d₀ :: ds, c.ts = x)) →
        (applyAll (emptyLead createdDt) (d₀ :: ds)).firstResponseAt = .ts M ∧
        (applyAll (emptyLead createdDt) (d₀ :: ds)).timeToFirstResponse =
          some ((M - createdDt).tdiv 60) := by
  refine ⟨minTs c₀ cs, (minTs_spec c₀ cs).1, (minTs_spec c₀ cs).2, ?_, ?_, ?_⟩
  · exact (applyAll_nonempty createdDt c₀ cs).2.1
  · exact (applyAll_nonempty createdDt c₀ cs).2.2
  · intro d₀ ds hsame
    have hMM : minTs d₀ ds = minTs c₀ cs := by
      obtain ⟨hub1, a, ha, hats⟩ := minTs_spec c₀ cs
      obtain ⟨hub2, b, hb, hbts⟩ := minTs_spec d₀ ds
      apply le_antisymm
      · obtain ⟨a', ha', hts'⟩ := (hsame (minTs c₀ cs)).mp ⟨a, ha, hats⟩
        calc minTs d₀ ds ≤ a'.ts := hub2 a' ha'
          _ = minTs c₀ cs := hts'
      · obtain ⟨b', hb', hts'⟩ := (hsame (minTs d₀ ds)).mpr ⟨b, hb, hbts⟩
        calc minTs c₀ cs ≤ b'.ts := hub1 b' hb'
          _ = minTs d₀ ds := hts'
    have h2 := applyAll_nonempty createdDt d₀ ds
    rw [hMM] at h2
    exact ⟨h2.2.1, h2.2.2⟩

/-- Witness: the convergence theorem applied to the concrete candidate set
with timestamps 300, 120, 300, from a lead created at 0; the minimum 120 is
recorded with 2 minutes. -/
theorem detect_first_touch_converges_witness :
    (∃ M : Int,
      (∀ c ∈ (⟨300, "u1", "Task"⟩ : Cand) ::
          [(⟨120, "u2", "EmailMessage"⟩ : Cand), ⟨300, "u3", "Task"⟩], M ≤ c.ts) ∧
      (∃ c ∈ (⟨300, "u1", "Task"⟩ : Cand) ::
          [(⟨120, "u2", "EmailMessage"⟩ : Cand), ⟨300, "u3", "Task"⟩], c.ts = M) ∧
      (applyAll (emptyLead 0) ((⟨300, "u1", "Task"⟩ : Cand) ::
          [(⟨120, "u2", "EmailMessage"⟩ : Cand), ⟨300, "u3", "Task"⟩])).firstResponseAt =
        .ts M ∧
      (applyAll (emptyLead 0) ((⟨300, "u1", "Task"⟩ : Cand) ::
          [(⟨120, "u2", "EmailMessage"⟩ : Cand), ⟨300, "u3", "Task"⟩])).timeToFirstResponse =
        some ((M - 0).tdiv 60) ∧
      ∀ (d₀ : Cand) (ds : List Cand),
        (∀ x : Int, (∃ c ∈ (⟨300, "u1", "Task"⟩ : Cand) ::
            [(⟨120, "u2", "EmailMessage"⟩ : Cand), ⟨300, "u3", "Task"⟩], c.ts = x) ↔
          (∃ c ∈ d₀ :: ds, c.ts = x)) →
        (applyAll (emptyLead 0) (d₀ :: ds)).firstResponseAt = .ts M ∧
        (applyAll (emptyLead 0) (d₀ :: ds)).timeToFirstResponse =
          some ((M - 0).tdiv 60)) ∧
    (applyAll (emptyLead 0) ((⟨300, "u1", "Task"⟩ : Cand) ::
        [(⟨120, "u2", "EmailMessage"⟩ : Cand), ⟨300, "u3", "Task"⟩])).firstResponseAt =
      .ts 120 ∧
    (applyAll (emptyLead 0) ((⟨300, "u1", "Task"⟩ : Cand) ::
        [(⟨120, "u2", "EmailMessage"⟩ : Cand), ⟨300, "u3", "Task"⟩])).timeToFirstResponse =
      some 2 :=
  ⟨detect_first_touch_converges 0 ⟨300, "u1", "Task"⟩
      [⟨120, "u2", "EmailMessage"⟩, ⟨300, "u3", "Task"⟩],
   by decide, by decide⟩

/-- C2: when the lead's stored `First_Response_At__c` parses and is less than
or equal to the candidate timestamp, `detect_first_touch` returns the skipped
result with reason `existing_earlier` and leaves the stored record unchanged
(an exactly equal candidate is skipped: the comparison is non-strict). -/
theorem detect_first_touch_skips_existing (lead : LeadRecord) (candidateDt : Int)
    (userId source : String) (existingDt : Int)
    (hex : parse_dt lead.firstResponseAt = some existingDt)
    (hle : existingDt ≤ candidateDt) :
    detect_first_touch lead candidateDt userId source =
      (.skipped existingDt candidateDt, lead) := by
  simp [detect_first_touch, hex, hle]

/-- Witness: a candidate exactly tying the stored response at 100 is skipped
and nothing is written. -/
theorem detect_first_touch_skips_existing_witness :
    parse_dt leadExisting.firstResponseAt = some 100 ∧ (100 : Int) ≤ 100 ∧
    detect_first_touch leadExisting 100 "u9" "EmailMessage" =
      (.skipped 100 100, leadExisting) :=
  ⟨by decide, by decide,
   detect_first_touch_skips_existing leadExisting 100 "u9" "EmailMessage" 100
     (by decide) (by decide)⟩

/-- Characterization of the update branch when `CreatedDate` parses. -/
theorem detect_update_eq (lead : LeadRecord) (candidateDt : Int)
    (userId source : String) (existingDt : Option Int) (createdDt : Int)
    (hcr : parse_dt lead.createdDate = some createdDt) :
    detect_update lead candidateDt userId source existingDt =
      (.updated candidateDt userId source
          ((candidateDt - createdDt).tdiv 60) existingDt.isSome,
       { lead with
           firstResponseAt := .ts candidateDt
           firstResponseUser := some userId
           firstResponseSource := some source
           timeToFirstResponse := some ((candidateDt - createdDt).tdiv 60) }) := by
  simp [detect_update, hcr]

/-- C5 (amended): on a successful update the recorded
`time_to_first_response_minutes` is the Python `int()` truncation of the
second difference over 60 — equal to the floor, and nonnegative, whenever the
candidate is not before `created_at`, but negative (and a truncation, not a
floor) when the candidate precedes creation; and when `created_at` is missing
(and no stored earlier response short-circuits the call) the operation fails
with the `Missing CreatedDate` data-integrity error and writes nothing. -/
theorem ttfr_minutes_formula (lead : LeadRecord) (candidateDt : Int)
    (userId source : String) :
    (∀ createdDt, parse_dt lead.createdDate = some createdDt →
      ∀ fra us src m rep,
        (detect_first_touch lead candidateDt userId source).1 =
          .updated fra us src m rep →
        m = (candidateDt - createdDt).tdiv 60 ∧
        (detect_first_touch lead candidateDt userId source).2.timeToFirstResponse =
          some m ∧
        (createdDt ≤ candidateDt →
          m = (candidateDt - createdDt).fdiv 60 ∧ 0 ≤ m)) ∧
    (parse_dt lead.createdDate = none →
      (∀ e, parse_dt lead.firstResponseAt = some e → candidateDt < e) →
      detect_first_touch lead candidateDt userId source =
        (.error "Missing CreatedDate", lead)) := by
  constructor
  · intro createdDt hcr fra us src m rep hup
    have hmain : ∀ ex : Option Int,
        (detect_update lead candidateDt userId source ex).1 =
          .updated fra us src m rep →
        m = (candidateDt - createdDt).tdiv 60 ∧
        (detect_update lead candidateDt userId source ex).2.timeToFirstResponse =
          some m := by
      intro ex hex
      rw [detect_update_eq lead candidateDt userId source ex createdDt hcr] at hex ⊢
      injection hex with h1 h2 h3 h4 h5
      exact ⟨h4.symm, by simp [h4]⟩
    have hrest : m = (candidateDt - createdDt).tdiv 60 →
        (createdDt ≤ candidateDt →
          m = (candidateDt - createdDt).fdiv 60 ∧ 0 ≤ m) := by
      intro hm hle
      have hnn : (0 : Int) ≤ candidateDt - createdDt := sub_nonneg.mpr hle
      constructor
      · rw [hm, Int.fdiv_eq_tdiv hnn (by norm_num)]
      · rw [hm]
        exact Int.tdiv_nonneg hnn (by norm_num)
    cases hex : parse_dt lead.firstResponseAt with
    | some e =>
        by_cases hle : e ≤ candidateDt
        · exfalso
          have hskip : (detect_first_touch lead candidateDt userId source).1 =
              .skipped e candidateDt := by
            simp [detect_first_touch, hex, hle]
          rw [hskip] at hup
          exact DetectResult.noConfusion hup
        · have hrun : detect_first_touch lead candidateDt userId source =
              detect_update lead candidateDt userId source (some e) := by
            simp [detect_first_touch, hex, hle]
          rw [hrun] at hup ⊢
          obtain ⟨hm, httfr⟩ := hmain (some e) hup
          exact ⟨hm, httfr, hrest hm⟩
    | none =>
        have hrun : detect_first_touch lead candidateDt userId source =
            detect_update lead candidateDt userId source none := by
          simp [detect_first_touch, hex]
        rw [hrun] at hup ⊢
        obtain ⟨hm, httfr⟩ := hmain none hup
        exact ⟨hm, httfr, hrest hm⟩
  · intro hcrn hno
    cases hex : parse_dt lead.firstResponseAt with
    | some e =>
        have hnle : ¬ e ≤ candidateDt := not_le.mpr (hno e hex)
        simp [detect_first_touch, hex, hnle, detect_update, hcrn]
    | none => simp [detect_first_touch, hex, detect_update, hcrn]

/-- Witness: a candidate 150 seconds after creation records 2 minutes, which
is both the truncation and the floor and is nonnegative. -/
theorem ttfr_minutes_formula_witness :
    (detect_first_touch (emptyLead 0) 150 "u1" "Task").1 =
        .updated 150 "u1" "Task" 2 false ∧
    ((2 : Int) = ((150 : Int) - 0).tdiv 60 ∧
     (detect_first_touch (emptyLead 0) 150 "u1" "Task").2.timeToFirstResponse =
       some 2 ∧
     ((0 : Int) ≤ 150 → (2 : Int) = ((150 : Int) - 0).fdiv 60 ∧ (0 : Int) ≤ 2)) :=
  ⟨by decide,
   (ttfr_minutes_formula (emptyLead 0) 150 "u1" "Task").1 0 (by decide)
     150 "u1" "Task" 2 false (by decide)⟩

/-- C5 counterexample: a candidate 90 seconds before the lead's creation is
recorded with `time_to_first_response_minutes = -1`, which is negative and is
not the floor of the second difference over 60 (the floor is -2). -/
theorem ttfr_negative_cx :
    (detect_first_touch (emptyLead 90) 0 "u1" "Task").1 =
        .updated 0 "u1" "Task" (-1) false ∧
    (detect_first_touch (emptyLead 90) 0 "u1" "Task").2.timeToFirstResponse =
        some (-1) ∧
    ¬ (0 : Int) ≤ -1 ∧ ((-1 : Int) ≠ ((0 : Int) - 90).fdiv 60) := by decide

/-- C6: with candidates from both sources, the strictly earlier one is passed
to `detect_first_touch`; an exact timestamp tie goes to the Task candidate;
and with no candidate from either source the call returns `None` (Absent)
without touching the record. -/
theorem find_and_record_picks_winner (lead : LeadRecord)
    (tasks emails : List QueryRow) :
    (∀ taskDt emailDt,
      earliestDt tasks = some taskDt → earliestDt emails = some emailDt →
      ((taskDt < emailDt →
          find_and_record_first_touch lead tasks emails =
            (some (detect_first_touch lead taskDt (headUser tasks) "Task").1,
             (detect_first_touch lead taskDt (headUser tasks) "Task").2)) ∧
       (emailDt < taskDt →
          find_and_record_first_touch lead tasks emails =
            (some (detect_first_touch lead emailDt (headUser emails)
                "EmailMessage").1,
             (detect_first_touch lead emailDt (headUser emails)
                "EmailMessage").2)) ∧
       (taskDt = emailDt →
          find_and_record_first_touch lead tasks emails =
            (some (detect_first_touch lead taskDt (headUser tasks) "Task").1,
             (detect_first_touch lead taskDt (headUser tasks) "Task").2)))) ∧
    (earliestDt tasks = none → earliestDt emails = none →
      find_and_record_first_touch lead tasks emails = (none, lead)) := by
  constructor
  · intro taskDt emailDt ht he
    refine ⟨fun hlt => ?_, fun hlt => ?_, fun heq => ?_⟩
    · simp [find_and_record_first_touch, ht, he, le_of_lt hlt]
    · simp [find_and_record_first_touch, ht, he, not_le.mpr hlt]
    · simp [find_and_record_first_touch, ht, he, le_of_eq heq]
  · intro ht he
    simp [find_and_record_first_touch, ht, he]

/-- Witness: Task at 1800s, Email at 1500s after creation — the Email
candidate wins and is recorded with 25 minutes. -/
theorem find_and_record_picks_winner_witness :
    earliestDt [({ rowDt := .ts 1800, userId := "U1" } : QueryRow)] = some 1800 ∧
    earliestDt [({ rowDt := .ts 1500, userId := "U2" } : QueryRow)] = some 1500 ∧
    (1500 : Int) < 1800 ∧
    find_and_record_first_touch (emptyLead 0)
        [{ rowDt := .ts 1800, userId := "U1" }]
        [{ rowDt := .ts 1500, userId := "U2" }] =
      (some (detect_first_touch (emptyLead 0) 1500
          (headUser [({ rowDt := .ts 1500, userId := "U2" } : QueryRow)])
          "EmailMessage").1,
       (detect_first_touch (emptyLead 0) 1500
          (headUser [({ rowDt := .ts 1500, userId := "U2" } : QueryRow)])
          "EmailMessage").2) ∧
    (detect_first_touch (emptyLead 0) 1500 "U2" "EmailMessage").1 =
      .updated 1500 "U2" "EmailMessage" 25 false :=
  ⟨by decide, by decide, by decide,
   ((find_and_record_picks_winner (emptyLead 0)
        [{ rowDt := .ts 1800, userId := "U1" }]
        [{ rowDt := .ts 1500, userId := "U2" }]).1 1800 1500
      (by decide) (by decide)).2.1 (by decide),
   by decide⟩

/-- C7 (amended): `ReplayStore.get` propagates an OS-level read failure other
than a missing file, but a missing store file and a file whose contents fail
JSON decoding are both swallowed into the empty state and reported as no
cursor. -/
theorem replay_get_read_failure (channel msg raw : String) :
    ReplayStore.get (.failsOS msg) channel = .error msg ∧
    ReplayStore.get (.text (.invalidJson raw)) channel = .ok none ∧
    ReplayStore.get .missing channel = .ok none :=
  ⟨rfl, rfl, rfl⟩

/-- C7 counterexample: a store file whose text fails to decode is a failed
read of the stored state, yet `get` reports it as "no cursor" instead of
surfacing the failure. -/
theorem replay_get_swallows_decode_failure_cx :
    jsonLoads (.invalidJson "not json") = none ∧
    ReplayStore.get (.text (.invalidJson "not json")) "/data/LeadChangeEvent" =
      .ok none :=
  ⟨rfl, rfl⟩

/-- C8: after `set(ch1, t1)` succeeds, `get(ch1)` returns `t1`, and a
subsequent `set` on a different channel leaves `ch1`'s stored value
unchanged. -/
theorem cursor_set_get_frame (f f₁ f₂ : FileContent) (ch₁ ch₂ t₁ t₂ : String)
    (hne : ch₁ ≠ ch₂)
    (h₁ : ReplayStore.set f ch₁ t₁ = .ok f₁)
    (h₂ : ReplayStore.set f₁ ch₂ t₂ = .ok f₂) :
    ReplayStore.get f₁ ch₁ = .ok (some t₁) ∧
    ReplayStore.get f₂ ch₁ = .ok (some t₁) := by
  refine ⟨ReplayStore.get_set_self f f₁ ch₁ t₁ h₁, ?_⟩
  obtain ⟨entries, rfl⟩ := ReplayStore.set_ok_shape f f₁ ch₁ t₁ h₁
  have hf₂ : f₂ = .text (.jsonMap (dictSet (dictSet entries ch₁ t₁) ch₂ t₂)) := by
    simp [ReplayStore.set, ReplayStore.readState] at h₂
    exact h₂.symm
  subst hf₂
  show Except.ok (dictGet (dictSet (dictSet entries ch₁ t₁) ch₂ t₂) ch₁) =
    Except.ok (some t₁)
  rw [dictGet_dictSet_ne _ _ _ _ (Ne.symm hne), dictGet_dictSet_self]

/-- Witness: `set("ch1","100")` then `set("ch2","200")` on an initially empty
store; `get("ch1")` returns `"100"` both times. -/
theorem cursor_set_get_frame_witness :
    ("ch1" : String) ≠ "ch2" ∧
    ReplayStore.set (.text (.jsonMap [])) "ch1" "100" =
      .ok (.text (.jsonMap [("ch1", "100")])) ∧
    ReplayStore.set (.text (.jsonMap [("ch1", "100")])) "ch2" "200" =
      .ok (.text (.jsonMap [("ch1", "100"), ("ch2", "200")])) ∧
    (ReplayStore.get (.text (.jsonMap [("ch1", "100")])) "ch1" =
        .ok (some "100") ∧
     ReplayStore.get (.text (.jsonMap [("ch1", "100"), ("ch2", "200")])) "ch1" =
        .ok (some "100")) :=
  ⟨by decide,
   by simp [ReplayStore.set, ReplayStore.readState, dictSet],
   by simp [ReplayStore.set, ReplayStore.readState, dictSet],
   cursor_set_get_frame (.text (.jsonMap [])) (.text (.jsonMap [("ch1", "100")]))
     (.text (.jsonMap [("ch1", "100"), ("ch2", "200")])) "ch1" "ch2" "100" "200"
     (by decide) (by simp [ReplayStore.set, ReplayStore.readState, dictSet])
     (by simp [ReplayStore.set, ReplayStore.readState, dictSet])⟩

/-- C9 (amended): a malformed stored `First_Response_At__c` is silently
coerced to "absent": the detector never skips on it and proceeds to overwrite
the four response fields (even reporting `replaced_existing = false`); only a
missing or unparseable `CreatedDate` yields a failed result. -/
theorem malformed_existing_coerced (lead : LeadRecord) (candidateDt : Int)
    (userId source : String) (hmal : lead.firstResponseAt = .malformed) :
    (∀ createdDt, parse_dt lead.createdDate = some createdDt →
      detect_first_touch lead candidateDt userId source =
        (.updated candidateDt userId source
            ((candidateDt - createdDt).tdiv 60) false,
         { lead with
             firstResponseAt := .ts candidateDt
             firstResponseUser := some userId
             firstResponseSource := some source
             timeToFirstResponse := some ((candidateDt - createdDt).tdiv 60) })) ∧
    (parse_dt lead.createdDate = none →
      detect_first_touch lead candidateDt userId source =
        (.error "Missing CreatedDate", lead)) := by
  constructor
  · intro createdDt hcr
    have hrun : detect_first_touch lead candidateDt userId source =
        detect_update lead candidateDt userId source none := by
      simp [detect_first_touch, hmal, parse_dt]
    rw [hrun, detect_update_eq lead candidateDt userId source none createdDt hcr]
    rfl
  · intro hcrn
    have hrun : detect_first_touch lead candidateDt userId source =
        detect_update lead candidateDt userId source none := by
      simp [detect_first_touch, hmal, parse_dt]
    rw [hrun]
    simp [detect_update, hcrn]

/-- Witness: the malformed stored response on `leadMalformed` is coerced and
overwritten by a candidate at 60 seconds. -/
theorem malformed_existing_coerced_witness :
    leadMalformed.firstResponseAt = .malformed ∧
    parse_dt leadMalformed.createdDate = some 0 ∧
    detect_first_touch leadMalformed 60 "u9" "EmailMessage" =
      (.updated 60 "u9" "EmailMessage" (((60 : Int) - 0).tdiv 60) false,
       { leadMalformed with
           firstResponseAt := .ts 60
           firstResponseUser := some "u9"
           firstResponseSource := some "EmailMessage"
           timeToFirstResponse := some (((60 : Int) - 0).tdiv 60) }) :=
  ⟨by decide, by decide,
   (malformed_existing_coerced leadMalformed 60 "u9" "EmailMessage"
     (by decide)).1 0 (by decide)⟩

/-- C9 counterexample: with a malformed stored `First_Response_At__c`, the
detection does not report a failed result — it overwrites the record. -/
theorem malformed_existing_overwritten_cx :
    (detect_first_touch leadMalformed 60 "u9" "EmailMessage").1.isError = false ∧
    detect_first_touch leadMalformed 60 "u9" "EmailMessage" =
      (.updated 60 "u9" "EmailMessage" 1 false,
       { createdDate := .ts 0, firstResponseAt := .ts 60,
         firstResponseUser := some "u9", firstResponseSource := some "EmailMessage",
         timeToFirstResponse := some 1 }) ∧
    (detect_first_touch leadMalformed 60 "u9" "EmailMessage").2 ≠ leadMalformed := by
  decide

/-- C10: an envelope whose extracted replay id is absent or falsy (the empty
string) causes no cursor-store write: the store state is unchanged and the
trace contains no cursor write. -/
theorem falsy_replay_id_no_write (handler : Option Handler) (store : FileContent)
    (channel : String) (env : Envelope)
    (h : env.replayId = none ∨ env.replayId = some "") :
    (process_event handler store channel env).1 = store ∧
    ∀ c t, EventAction.cursorSet c t ∉ (process_event handler store channel env).2 := by
  have hrun : process_event handler store channel env =
      dispatchHandler handler store channel [] env := by
    rcases h with h | h <;> simp [process_event, h]
  rw [hrun]
  obtain ⟨hstore, a, htr, hnone⟩ := dispatchHandler_frame handler store channel [] env
  refine ⟨hstore, fun c t hmem => hnone c t ?_⟩
  rw [htr] at hmem
  simpa using hmem

/-- Witness: an envelope with the falsy replay id `""` leaves a concrete
store untouched. -/
theorem falsy_replay_id_no_write_witness :
    (({ payload := [], replayId := some "" } : Envelope).replayId = none ∨
     ({ payload := [], replayId := some "" } : Envelope).replayId = some "") ∧
    ((process_event none (.text (.jsonMap [("ch", "1")])) "ch"
        { payload := [], replayId := some "" }).1 =
      .text (.jsonMap [("ch", "1")]) ∧
     ∀ c t, EventAction.cursorSet c t ∉
        (process_event none (.text (.jsonMap [("ch", "1")])) "ch"
          { payload := [], replayId := some "" }).2) :=
  ⟨Or.inr (by decide),
   falsy_replay_id_no_write none (.text (.jsonMap [("ch", "1")])) "ch"
     { payload := [], replayId := some "" } (Or.inr (by decide))⟩

/-- C3 counterexample: on a concrete envelope carrying a token, the
dispatcher's trace writes the cursor first and only then invokes the handler,
so the token is persisted before — not after — handler execution. -/
theorem cursor_persisted_before_handler_cx :
    (process_event (some okHandler) (.text (.jsonMap []))
        "/data/LeadChangeEvent" envLead42).2 =
      [.cursorSet "/data/LeadChangeEvent" "42183991",
       .handlerInvoke "/data/LeadChangeEvent"] ∧
    ∃ later : List EventAction,
      (process_event (some okHandler) (.text (.jsonMap []))
          "/data/LeadChangeEvent" envLead42).2 =
        .cursorSet "/data/LeadChangeEvent" "42183991" :: later ∧
      .handlerInvoke "/data/LeadChangeEvent" ∈ later :=
  ⟨by decide, [.handlerInvoke "/data/LeadChangeEvent"], by decide, by decide⟩

/-- C3 (amended): for every envelope carrying a truthy token, the dispatcher
persists the token to the cursor store before invoking the handler, and the
persisted store survives regardless of the handler's outcome. -/
theorem token_persisted_before_handler (h : Handler) (store store₁ : FileContent)
    (channel rid : String) (env : Envelope)
    (hrid : env.replayId = some rid) (hne : rid ≠ "")
    (hset : ReplayStore.set store channel rid = .ok store₁) :
    ∃ later : List EventAction,
      (process_event (some h) store channel env).2 =
        .cursorSet channel rid :: later ∧
      .handlerInvoke channel ∈ later ∧
      (process_event (some h) store channel env).1 = store₁ := by
  have hrun : process_event (some h) store channel env =
      dispatchHandler (some h) store₁ channel [.cursorSet channel rid] env := by
    simp [process_event, hrid, hne, hset]
  rw [hrun]
  cases hres : h env.payload with
  | ok u =>
      refine ⟨[.handlerInvoke channel], ?_, by simp, ?_⟩ <;>
        simp [dispatchHandler, hres]
  | error msg =>
      refine ⟨[.handlerInvoke channel, .errorCaught channel msg], ?_, by simp, ?_⟩ <;>
        simp [dispatchHandler, hres]

/-- Witness: a failing handler on the envelope with token 42183991 — the
cursor write still comes first and the written store persists. -/
theorem token_persisted_before_handler_witness :
    (envLead42.replayId = some "42183991" ∧ ("42183991" : String) ≠ "" ∧
     ReplayStore.set (.text (.jsonMap [])) "/data/LeadChangeEvent" "42183991" =
       .ok (.text (.jsonMap [("/data/LeadChangeEvent", "42183991")]))) ∧
    ∃ later : List EventAction,
      (process_event (some errHandler) (.text (.jsonMap []))
          "/data/LeadChangeEvent" envLead42).2 =
        .cursorSet "/data/LeadChangeEvent" "42183991" :: later ∧
      .handlerInvoke "/data/LeadChangeEvent" ∈ later ∧
      (process_event (some errHandler) (.text (.jsonMap []))
          "/data/LeadChangeEvent" envLead42).1 =
        .text (.jsonMap [("/data/LeadChangeEvent", "42183991")]) :=
  ⟨⟨by decide, by decide,
    by simp [ReplayStore.set, ReplayStore.readState, dictSet]⟩,
   token_persisted_before_handler errHandler (.text (.jsonMap []))
     (.text (.jsonMap [("/data/LeadChangeEvent", "42183991")]))
     "/data/LeadChangeEvent" "42183991" envLead42 (by decide) (by decide)
     (by simp [ReplayStore.set, ReplayStore.readState, dictSet])⟩


/-- C4: for every envelope whose handler raises an error — token or no token —
the dispatcher catches the error at the per-envelope boundary whenever the
handler was invoked (recording it in the trace instead of propagating), and
the next envelope on the channel is always processed from the post-envelope
store exactly as usual.  The cursor treatment follows the token: an envelope
with an absent or falsy replay id records the failure with the store left
untouched, while an envelope carrying a truthy token whose cursor write
succeeded still has its cursor advanced to that token, and the following
envelope's handler is then reached as well. -/
theorem handler_failure_is_local (h : Handler) (store : FileContent)
    (channel : String) (env₁ env₂ : Envelope) (msg : String)
    (hfail : h env₁.payload = .error msg) :
    (EventAction.handlerInvoke channel ∈
        (process_event (some h) store channel env₁).2 →
      EventAction.errorCaught channel msg ∈
        (process_event (some h) store channel env₁).2) ∧
    processAll (some h) store channel [env₁, env₂] =
      ((process_event (some h)
          (process_event (some h) store channel env₁).1 channel env₂).1,
       (process_event (some h) store channel env₁).2 ++
         (process_event (some h)
            (process_event (some h) store channel env₁).1 channel env₂).2) ∧
    ((env₁.replayId = none ∨ env₁.replayId = some "") →
      process_event (some h) store channel env₁ =
        (store, [.handlerInvoke channel, .errorCaught channel msg])) ∧
    (∀ rid store₁, env₁.replayId = some rid → rid ≠ "" →
      ReplayStore.set store channel rid = .ok store₁ →
      process_event (some h) store channel env₁ =
        (store₁, [.cursorSet channel rid, .handlerInvoke channel,
                  .errorCaught channel msg]) ∧
      ReplayStore.get store₁ channel = .ok (some rid) ∧
      EventAction.handlerInvoke channel ∈
        (process_event (some h) store₁ channel env₂).2) := by
  have hfalsy : ∀ (hf : env₁.replayId = none ∨ env₁.replayId = some ""),
      process_event (some h) store channel env₁ =
        (store, [.handlerInvoke channel, .errorCaught channel msg]) := by
    intro hf
    rcases hf with hf | hf <;> simp [process_event, hf, dispatchHandler, hfail]
  have htok : ∀ rid store₁, env₁.replayId = some rid → rid ≠ "" →
      ReplayStore.set store channel rid = .ok store₁ →
      process_event (some h) store channel env₁ =
        (store₁, [.cursorSet channel rid, .handlerInvoke channel,
                  .errorCaught channel msg]) := by
    intro rid store₁ hrid hne hset
    simp [process_event, hrid, hne, hset, dispatchHandler, hfail]
  refine ⟨?_, by simp [processAll], hfalsy, ?_⟩
  · cases hrid : env₁.replayId with
    | none =>
        rw [hfalsy (Or.inl hrid)]
        intro _
        simp
    | some rid =>
        by_cases hne : rid = ""
        · rw [hfalsy (Or.inr (hne ▸ hrid))]
          intro _
          simp
        · cases hset : ReplayStore.set store channel rid with
          | error e =>
              have hstop : process_event (some h) store channel env₁ =
                  (store, [.errorCaught channel e]) := by
                simp [process_event, hrid, hne, hset]
              rw [hstop]
              intro hmem
              simp at hmem
          | ok store₁ =>
              rw [htok rid store₁ hrid hne hset]
              intro _
              simp
  · intro rid store₁ hrid hne hset
    refine ⟨htok rid store₁ hrid hne hset,
            ReplayStore.get_set_self store store₁ channel rid hset, ?_⟩
    obtain ⟨entries, hshape⟩ :=
      ReplayStore.set_ok_shape store store₁ channel rid hset
    subst hshape
    exact process_event_invokes h _ channel env₂

/-- Witness: a failing handler on a falsy-token envelope (replay id `""`, the
default `_convert_to_cdc_event` produces) has its failure caught with the
store untouched and the next envelope still processed; on a truthy-token
envelope (token 7) the failure is caught after the cursor advanced to 7 and
the next envelope's handler is reached. -/
theorem handler_failure_is_local_witness :
    (errHandler ({ payload := [], replayId := some "" } : Envelope).payload =
        .error "boom" ∧
     process_event (some errHandler) (.text (.jsonMap [])) "ch"
        { payload := [], replayId := some "" } =
       (.text (.jsonMap []),
        [.handlerInvoke "ch", .errorCaught "ch" "boom"]) ∧
     processAll (some errHandler) (.text (.jsonMap [])) "ch"
        [{ payload := [], replayId := some "" },
         { payload := [], replayId := some "8" }] =
       ((process_event (some errHandler)
           (process_event (some errHandler) (.text (.jsonMap [])) "ch"
             { payload := [], replayId := some "" }).1 "ch"
           { payload := [], replayId := some "8" }).1,
        (process_event (some errHandler) (.text (.jsonMap [])) "ch"
           { payload := [], replayId := some "" }).2 ++
          (process_event (some errHandler)
             (process_event (some errHandler) (.text (.jsonMap [])) "ch"
               { payload := [], replayId := some "" }).1 "ch"
             { payload := [], replayId := some "8" }).2)) ∧
    (process_event (some errHandler) (.text (.jsonMap [])) "ch"
        { payload := [], replayId := some "7" } =
       (.text (.jsonMap [("ch", "7")]),
        [.cursorSet "ch" "7", .handlerInvoke "ch", .errorCaught "ch" "boom"]) ∧
     ReplayStore.get (.text (.jsonMap [("ch", "7")])) "ch" = .ok (some "7") ∧
     EventAction.handlerInvoke "ch" ∈
       (process_event (some errHandler) (.text (.jsonMap [("ch", "7")])) "ch"
         { payload := [], replayId := some "8" }).2) :=
  ⟨⟨rfl,
    (handler_failure_is_local errHandler (.text (.jsonMap [])) "ch"
        { payload := [], replayId := some "" }
        { payload := [], replayId := some "8" } "boom" rfl).2.2.1
      (Or.inr rfl),
    (handler_failure_is_local errHandler (.text (.jsonMap [])) "ch"
        { payload := [], replayId := some "" }
        { payload := [], replayId := some "8" } "boom" rfl).2.1⟩,
   (handler_failure_is_local errHandler (.text (.jsonMap [])) "ch"
        { payload := [], replayId := some "7" }
        { payload := [], replayId := some "8" } "boom" rfl).2.2.2 "7"
     (.text (.jsonMap [("ch", "7")])) rfl (by decide)
     (by simp [ReplayStore.set, ReplayStore.readState, dictSet])⟩
